import Mathlib

/-
  Verification of the Polymarket mispricing scoring engine
  (packages/polymarket/src: toOrderbookSnapshot, scoreMispricingCandidate,
  rankMispricingSignals and their helpers) and of the scan-input
  normalization layer (polymarket/scan.ts: normalizeInput and friends).

  Modelling conventions, used uniformly below:
  * JavaScript numbers are modelled as exact rationals.  Every arithmetic
    operation performed by the engine (+, -, *, /, min, max, comparison,
    Math.round-based rounding) is exact on rationals; IEEE-754 rounding is
    not modelled.  Non-finite values (NaN and the infinities) cannot flow out of
    the engine arithmetic on the modelled domain; the one place where the
    source explicitly tests finiteness and integrality of *inputs* (the
    scan parameter validation) uses the dedicated JsNum type which does
    carry NaN and the infinities.
  * JavaScript strings that the engine only stores or compares are Lean
    strings.  Timestamp strings are modelled by JsStr, which records the
    two observations the source makes of such a string: the result of
    Number(s) (none for a non-finite result) and the result of
    Date.parse(s) (none for NaN), plus a tag distinguishing otherwise
    identical raw strings.  JsStr.iso ms is the string produced by
    new Date(ms).toISOString().  Per ECMAScript, a Date carries NaN when
    the supplied epoch-millisecond value exceeds 8.64e15 in magnitude, and
    toISOString throws a RangeError on such a Date; constructing an ISO
    string is therefore modelled as an Except computation.
  * Math.toUpperCase / trim on outcome labels are modelled by Lean's
    String.toUpper / String.trim (the labels compared against are ASCII).
  * Template-literal number formatting inside rationale strings is
    modelled by Lean's toString on rationals; no claim observes the
    rendered text, only the list structure.
-/

namespace Finny

-- Batteries marks rational arithmetic irreducible, which blocks the
-- evaluation of the engine on the concrete fixtures below; restore the
-- definitional behaviour inside this file.
attribute [local semireducible] Rat.ofScientific Rat.mul Rat.inv Rat.add Rat.sub

/-- Math.min(max, Math.max(min, value)) from the source (function clamp). -/
def clamp (value lo hi : ℚ) : ℚ := min hi (max lo value)

/-- clampProbability from the source: clamp(value, 0.01, 0.99). -/
def clampProbability (value : ℚ) : ℚ := clamp value (1/100) (99/100)

/-- Math.round: round half toward positive infinity. -/
def jsRound (q : ℚ) : ℤ := ⌊q + 1/2⌋

/-- ToIntegerOrInfinity on a finite value: truncation toward zero. -/
def jsTrunc (q : ℚ) : ℤ := if 0 ≤ q then ⌊q⌋ else ⌈q⌉

/-- round0 from the source: Math.round(value). -/
def round0 (q : ℚ) : ℚ := (jsRound q : ℚ)

/-- round2 from the source: Math.round(value * 100) / 100. -/
def round2 (q : ℚ) : ℚ := (jsRound (q * 100) : ℚ) / 100

/-- round4 from the source: Math.round(value * 10000) / 10000. -/
def round4 (q : ℚ) : ℚ := (jsRound (q * 10000) : ℚ) / 10000

/-- blend from the source: left * leftWeight + right * (1 - leftWeight). -/
def blend (left right leftWeight : ℚ) : ℚ :=
  left * leftWeight + right * (1 - leftWeight)

/-- SCORE_EPSILON constant from the source. -/
def SCORE_EPSILON : ℚ := 1/1000000

/-- Largest epoch-millisecond magnitude an ECMAScript Date can carry
(8.64e15); beyond it the Date holds NaN and toISOString throws. -/
def maxTimeMs : ℚ := 8640000000000000

/-- String.prototype.trim modelled structurally on the character list
(ASCII whitespace; the labels the engine compares are ASCII). -/
def jsTrim (s : String) : String :=
  ⟨((s.data.dropWhile Char.isWhitespace).reverse.dropWhile
    Char.isWhitespace).reverse⟩

/-- String.prototype.toUpperCase modelled structurally on the character
list. -/
def jsToUpper (s : String) : String := ⟨s.data.map Char.toUpper⟩

/-- Model of a JavaScript string as observed by the timestamp code: raw
strings expose the value of Number(s) (none when not finite) and of
Date.parse(s) (none when NaN); iso ms is the output of
new Date(ms).toISOString(). -/
inductive JsStr where
  | raw (numberVal : Option ℚ) (dateParseVal : Option ℚ) (tag : ℕ)
  | iso (ms : ℤ)
deriving DecidableEq

/-- Number(s): an ISO instant string is not numeric (NaN). -/
def JsStr.toNumber : JsStr → Option ℚ
  | .raw n _ _ => n
  | .iso _ => none

/-- Date.parse(s): an ISO instant string parses back to its epoch value. -/
def JsStr.dateParse : JsStr → Option ℚ
  | .raw _ p _ => p
  | .iso ms => some (ms : ℚ)

/-- One price level of a raw order book (type PolymarketOrderLevel). -/
structure PolymarketOrderLevel where
  price : ℚ
  size : ℚ
deriving DecidableEq

/-- Raw order-book payload (type PolymarketOrderbookSummary). -/
structure PolymarketOrderbookSummary where
  market : String
  assetId : String
  timestamp : JsStr
  hash : String
  bids : List PolymarketOrderLevel
  asks : List PolymarketOrderLevel
  bestBid : Option ℚ
  bestAsk : Option ℚ
  minOrderSize : Option ℚ
  tickSize : Option ℚ
  negRisk : Bool
deriving DecidableEq

/-- Normalized order-book snapshot (type OrderbookSnapshot). -/
structure OrderbookSnapshot where
  tokenId : String
  bestBid : Option ℚ
  bestAsk : Option ℚ
  midpoint : Option ℚ
  spreadBps : Option ℚ
  timestamp : JsStr
deriving DecidableEq

/-- Market record (type PolymarketMarket, scoring-engine variant). -/
structure PolymarketMarket where
  id : String
  conditionId : Option String
  slug : Option String
  question : Option String
  eventId : Option String
  outcomes : List String
  outcomePrices : List ℚ
  active : Bool
  closed : Bool
  acceptingOrders : Bool
  endDate : Option JsStr
  volume : Option ℚ
  volume24hr : Option ℚ
  liquidity : Option ℚ
  bestBid : Option ℚ
  bestAsk : Option ℚ
  spread : Option ℚ
  oneHourPriceChange : Option ℚ
  oneDayPriceChange : Option ℚ
  oneWeekPriceChange : Option ℚ
  oneMonthPriceChange : Option ℚ
  lastTradePrice : Option ℚ
  clobTokenIds : List String
deriving DecidableEq

/-- new Date(ms).toISOString(): yields the ISO string for an in-range
epoch value and throws a RangeError (modelled as Except.error) when the
magnitude exceeds 8.64e15, because the Date then carries NaN. -/
def jsDateToIso (ms : ℚ) : Except Unit JsStr :=
  if |ms| ≤ maxTimeMs then .ok (.iso (jsTrunc ms)) else .error ()

/-- Tail of normalizeTimestamp after the numeric branch: try Date.parse,
convert a finite result to ISO, otherwise pass the string through. -/
def normalizeTimestampTail (s : JsStr) : Except Unit JsStr :=
  match s.dateParse with
  | some p => jsDateToIso p
  | none => .ok s

/-- normalizeTimestamp from the source: if Number(s) is finite and
positive, convert it as epoch milliseconds to an ISO instant; else try
Date.parse; else return the string unchanged.  The ISO conversion can
throw (see jsDateToIso). -/
def normalizeTimestamp (s : JsStr) : Except Unit JsStr :=
  match s.toNumber with
  | some v => if 0 < v then jsDateToIso v else normalizeTimestampTail s
  | none => normalizeTimestampTail s

/-- Loop body of findBestBid: keep the larger price. -/
def bestBidStep (best : Option ℚ) (level : PolymarketOrderLevel) : Option ℚ :=
  match best with
  | none => some level.price
  | some b => if level.price > b then some level.price else some b

/-- Loop body of findBestAsk: keep the smaller price. -/
def bestAskStep (best : Option ℚ) (level : PolymarketOrderLevel) : Option ℚ :=
  match best with
  | none => some level.price
  | some b => if level.price < b then some level.price else some b

/-- findBestBid from the source: seed with levels[0].price, then scan all
levels keeping the maximum. -/
def findBestBid (orderbook : PolymarketOrderbookSummary) : Option ℚ :=
  if orderbook.bids = [] then none
  else orderbook.bids.foldl bestBidStep (orderbook.bids.head?.map (·.price))

/-- findBestAsk from the source: seed with levels[0].price, then scan all
levels keeping the minimum. -/
def findBestAsk (orderbook : PolymarketOrderbookSummary) : Option ℚ :=
  if orderbook.asks = [] then none
  else orderbook.asks.foldl bestAskStep (orderbook.asks.head?.map (·.price))

/-- toOrderbookSnapshot from the source.  The midpoint used for the
spread computation is the unclamped average of best bid and ask; the
stored midpoint is clamped to [0.01, 0.99].  The Except propagates the
possible RangeError of normalizeTimestamp. -/
def toOrderbookSnapshot (orderbook : PolymarketOrderbookSummary) :
    Except Unit OrderbookSnapshot := do
  let bestBid := findBestBid orderbook
  let bestAsk := findBestAsk orderbook
  let midpoint : Option ℚ :=
    match bestBid, bestAsk with
    | some b, some a => some ((b + a) / 2)
    | _, _ => none
  let spreadBps : Option ℚ :=
    match midpoint, bestBid, bestAsk with
    | some m, some b, some a => if m > 0 then some ((a - b) / m * 10000) else none
    | _, _, _ => none
  let ts ← normalizeTimestamp orderbook.timestamp
  return {
    tokenId := orderbook.assetId
    bestBid := bestBid
    bestAsk := bestAsk
    midpoint := midpoint.map clampProbability
    spreadBps := spreadBps.map (fun s => max 0 s)
    timestamp := ts }

/-- Result record of resolveMarketProbability. -/
structure MarketProbabilitySnapshot where
  marketProb : ℚ
  spreadBps : Option ℚ
deriving DecidableEq

/-- getYesProbability from the source: the outcome price at the index of
the outcome labelled YES (trimmed, upper-cased), at index 0 when no such
label exists; none when the price list is empty or the index is out of
range; the price is clamped to [0.01, 0.99]. -/
def getYesProbability (market : PolymarketMarket) : Option ℚ :=
  if market.outcomePrices = [] then none
  else
    -- findIndex returns -1 when no outcome matches; the source then uses 0.
    let yesIndex := market.outcomes.findIdx?
      (fun o => jsToUpper (jsTrim o) = "YES")
    let index := yesIndex.getD 0
    match market.outcomePrices.get? index with
    | none => none
    | some candidate => some (clampProbability candidate)

/-- Market-record part of resolveSpreadBps (taken when the order-book
snapshot carries no spread): market.spread scaled to bps, else a spread
derived from the market quote, else none. -/
def resolveSpreadBpsFromMarket (market : PolymarketMarket) : Option ℚ :=
  match market.spread with
  | some sp => some (max 0 (sp * 10000))
  | none =>
    match market.bestBid, market.bestAsk with
    | some b, some a =>
      let mid := (b + a) / 2
      if mid > 0 then some (max 0 ((a - b) / mid * 10000)) else none
    | _, _ => none

/-- resolveSpreadBps from the source.  The guard there reads
orderbook?.spreadBps !== null && !== undefined, which holds exactly when
a snapshot is present and carries a spread. -/
def resolveSpreadBps (market : PolymarketMarket)
    (orderbook : Option OrderbookSnapshot) : Option ℚ :=
  match orderbook with
  | some o =>
    match o.spreadBps with
    | some s => some (max 0 s)
    | none => resolveSpreadBpsFromMarket market
  | none => resolveSpreadBpsFromMarket market

/-- resolveMarketProbability from the source: blend the order-book
midpoint, the market quote midpoint and the outcome price with the
fallback chains of the original, then clamp to [0.01, 0.99]. -/
def resolveMarketProbability (market : PolymarketMarket)
    (orderbook : Option OrderbookSnapshot) : MarketProbabilitySnapshot :=
  let outcomeProb := getYesProbability market
  let quoteMid : Option ℚ :=
    match market.bestBid, market.bestAsk with
    | some b, some a => some (clampProbability ((b + a) / 2))
    | _, _ => none
  let orderbookMid : Option ℚ := orderbook.bind (·.midpoint)
  let marketProb : ℚ :=
    match orderbookMid with
    | some om => blend om (quoteMid.getD (outcomeProb.getD om)) (55/100)
    | none =>
      match quoteMid with
      | some qm => blend qm (outcomeProb.getD qm) (7/10)
      | none => outcomeProb.getD (1/2)
  { marketProb := clampProbability marketProb
    spreadBps := resolveSpreadBps market orderbook }

/-- Result record of computeMomentumDislocation. -/
structure MomentumDislocation where
  score : ℚ
  fairAdjustment : ℚ
  hasData : Bool
deriving DecidableEq

/-- computeMomentumDislocation from the source. -/
def computeMomentumDislocation (market : PolymarketMarket)
    (timeHorizonHours : ℚ) : MomentumDislocation :=
  let oneHour := market.oneHourPriceChange
  let oneDay := market.oneDayPriceChange
  if oneHour = none ∧ oneDay = none then
    { score := 0, fairAdjustment := 0, hasData := false }
  else
    let horizon := clamp timeHorizonHours 1 168
    let hourWeight := clamp (4/5 - (horizon - 1) / 120) (1/5) (4/5)
    let dayWeight := 1 - hourWeight
    -- composite = (oneHour ?? 0) * hourWeight + (oneDay ?? oneHour ?? 0) * dayWeight
    let composite :=
      (oneHour.getD 0) * hourWeight + (oneDay.getD (oneHour.getD 0)) * dayWeight
    { score := clamp (|composite| / (6/100)) 0 1
      fairAdjustment := clamp (-composite * (35/100)) (-(12/100)) (12/100)
      hasData := true }

/-- Result record of computePartitionConsistency.  peerCount is a natural
number; Nat subtraction in peers.length - 1 coincides with the source
expression Math.max(0, peers.length - 1). -/
structure PartitionConsistency where
  score : ℚ
  fairAdjustment : ℚ
  partitionDislocation : Option ℚ
  peerCount : ℕ
deriving DecidableEq

/-- Recursion of dedupeById with the set of already seen ids. -/
def dedupeByIdGo (seen : List String) : List PolymarketMarket → List PolymarketMarket
  | [] => []
  | m :: rest =>
    if seen.contains m.id then dedupeByIdGo seen rest
    else m :: dedupeByIdGo (m.id :: seen) rest

/-- dedupeById from the source: keep the first market for each id. -/
def dedupeById (markets : List PolymarketMarket) : List PolymarketMarket :=
  dedupeByIdGo [] markets

/-- computePartitionConsistency from the source, with its three early
returns.  peers.map(getYesProbability).filter(notNull) is List.filterMap,
and reduce with + and seed 0 is List.foldl. -/
def computePartitionConsistency (market : PolymarketMarket) (marketProb : ℚ)
    (relatedMarkets : List PolymarketMarket) : PartitionConsistency :=
  let peers := (dedupeById (market :: relatedMarkets)).filter
    (fun item => item.active && !item.closed)
  if peers.length < 3 then
    { score := 0, fairAdjustment := 0, partitionDislocation := none
      peerCount := peers.length - 1 }
  else
    let probabilities := peers.filterMap getYesProbability
    if probabilities.length < 3 then
      { score := 0, fairAdjustment := 0, partitionDislocation := none
        peerCount := peers.length - 1 }
    else
      let sum := probabilities.foldl (· + ·) 0
      if sum < 3/5 ∨ sum > 7/5 then
        { score := 0, fairAdjustment := 0, partitionDislocation := none
          peerCount := peers.length - 1 }
      else
        let dislocation := 1 - sum
        let share := clamp (marketProb / max sum SCORE_EPSILON) (1/20) (19/20)
        { score := clamp (|dislocation| / (25/100)) 0 1
          fairAdjustment := clamp (dislocation * share * (75/100)) (-(2/10)) (2/10)
          partitionDislocation := some dislocation
          peerCount := peers.length - 1 }

/-- Partition estimator as the specification words it: one combined guard
(fewer than 3 active deduplicated peers including self, fewer than 3
usable probabilities, or a probability sum outside [0.6, 1.4] gives the
null result), otherwise dislocation = 1 - sum, share =
clamp(marketProb / sum, 0.05, 0.95), score = clamp(|dislocation| / 0.25,
0, 1) and fairAdjustment = clamp(dislocation * share * 0.75, -0.2, 0.2).
This definition follows the specification text, for comparison with
computePartitionConsistency, which follows the source. -/
def partitionConsistencySpec (market : PolymarketMarket) (marketProb : ℚ)
    (relatedMarkets : List PolymarketMarket) : PartitionConsistency :=
  let peers := (dedupeById (market :: relatedMarkets)).filter
    (fun item => item.active && !item.closed)
  let probabilities := peers.filterMap getYesProbability
  let sum := probabilities.foldl (· + ·) 0
  if peers.length < 3 ∨ probabilities.length < 3 ∨ sum < 3/5 ∨ sum > 7/5 then
    { score := 0, fairAdjustment := 0, partitionDislocation := none
      peerCount := peers.length - 1 }
  else
    let dislocation := 1 - sum
    let share := clamp (marketProb / sum) (1/20) (19/20)
    { score := clamp (|dislocation| / (25/100)) 0 1
      fairAdjustment := clamp (dislocation * share * (75/100)) (-(2/10)) (2/10)
      partitionDislocation := some dislocation
      peerCount := peers.length - 1 }

/-- MispricingConfidence from the source, as a closed enumeration. -/
inductive MispricingConfidence where
  | low
  | medium
  | high
deriving DecidableEq

/-- Signal side from the source, as a closed enumeration. -/
inductive SignalSide where
  | yes
  | no
deriving DecidableEq

/-- MispricingComponentScores from the source. -/
structure MispricingComponentScores where
  spreadQuality : ℚ
  liquidityDepthQuality : ℚ
  momentumDislocation : ℚ
  relatedMarketConsistency : ℚ
  edgeMagnitude : ℚ
deriving DecidableEq

/-- MispricingPenalties from the source. -/
structure MispricingPenalties where
  stalePenalty : ℚ
  lowActivityPenalty : ℚ
deriving DecidableEq

/-- MispricingWeights from the source. -/
structure MispricingWeights where
  spreadQuality : ℚ
  liquidityDepthQuality : ℚ
  momentumDislocation : ℚ
  relatedMarketConsistency : ℚ
  edgeMagnitude : ℚ
deriving DecidableEq

/-- ScoringThresholds from the source. -/
structure ScoringThresholds where
  lowVolume24h : ℚ
  moderateVolume24h : ℚ
  staleAfterMinutes : ℚ
  veryStaleAfterMinutes : ℚ
deriving DecidableEq

/-- DEFAULT_WEIGHTS constant from the source. -/
def DEFAULT_WEIGHTS : MispricingWeights :=
  { spreadQuality := 23/100
    liquidityDepthQuality := 25/100
    momentumDislocation := 18/100
    relatedMarketConsistency := 18/100
    edgeMagnitude := 16/100 }

/-- DEFAULT_THRESHOLDS constant from the source. -/
def DEFAULT_THRESHOLDS : ScoringThresholds :=
  { lowVolume24h := 250
    moderateVolume24h := 2500
    staleAfterMinutes := 20
    veryStaleAfterMinutes := 60 }

/-- MispricingSignal from the source. -/
structure MispricingSignal where
  marketId : String
  marketSlug : String
  side : SignalSide
  marketProb : ℚ
  fairProbProxy : ℚ
  edgePct : ℚ
  mispricingScore : ℚ
  confidence : MispricingConfidence
  rationale : List String
  riskFlags : List String
deriving DecidableEq

/-- MispricingTrace from the source. -/
structure MispricingTrace where
  marketId : String
  marketSlug : String
  marketProb : ℚ
  fairProbProxy : ℚ
  selectedSide : SignalSide
  edgePct : ℚ
  componentScores : MispricingComponentScores
  penalties : MispricingPenalties
  spreadBps : Option ℚ
  liquidity : Option ℚ
  volume24h : Option ℚ
  orderbookAgeMinutes : Option ℚ
  peerCount : ℕ
  partitionDislocation : Option ℚ
  rationale : List String
  riskFlags : List String
deriving DecidableEq

/-- scoreSpreadQuality from the source. -/
def scoreSpreadQuality (spreadBps : Option ℚ) : ℚ :=
  match spreadBps with
  | none => 2/10
  | some s => 1 - clamp ((s - 25) / 475) 0 1

/-- Two-sided-quote indicator inside scoreLiquidityDepthQuality.  The
source condition is
(orderbook?.bestBid !== null && orderbook?.bestAsk !== null) ||
(market.bestBid !== null && market.bestAsk !== null); when orderbook is
null, optional chaining produces undefined and undefined !== null is
true, so the first conjunction holds for a missing snapshot. -/
def twoSidedQuote (market : PolymarketMarket)
    (orderbook : Option OrderbookSnapshot) : Bool :=
  (match orderbook with
   | none => true
   | some o => o.bestBid.isSome && o.bestAsk.isSome)
  || (market.bestBid.isSome && market.bestAsk.isSome)

/-- scoreLiquidityDepthQuality from the source, parameterized by a model
log10 of Math.log10 (an arbitrary rational-valued function; no claim
depends on its values).  The source evaluates Math.log10 only on a
non-null liquidity or volume. -/
def scoreLiquidityDepthQuality (log10 : ℚ → ℚ) (market : PolymarketMarket)
    (orderbook : Option OrderbookSnapshot) : ℚ :=
  let liquidityScore :=
    match market.liquidity with
    | none => 0
    | some l => clamp (log10 (l + 1) / 5) 0 1
  let volumeScore :=
    match market.volume24hr with
    | none => 0
    | some v => clamp (log10 (v + 1) / 6) 0 1
  let twoSided : ℚ := if twoSidedQuote market orderbook then 1 else 0
  clamp (liquidityScore * (55/100) + volumeScore * (3/10) + twoSided * (15/100)) 0 1

/-- computeOrderbookAgeMinutes from the source: age in minutes between
the snapshot timestamp and now, both via Date.parse, floored at 0 and
rounded to 2 decimals; none when the snapshot is missing or either
timestamp does not parse. -/
def computeOrderbookAgeMinutes (orderbook : Option OrderbookSnapshot)
    (nowIso : JsStr) : Option ℚ :=
  match orderbook with
  | none => none
  | some o =>
    match o.timestamp.dateParse, nowIso.dateParse with
    | some orderbookTime, some nowTime =>
      some (round2 (max 0 ((nowTime - orderbookTime) / 60000)))
    | _, _ => none

/-- computePenalties from the source. -/
def computePenalties (market : PolymarketMarket)
    (orderbook : Option OrderbookSnapshot) (nowIso : JsStr)
    (thresholds : ScoringThresholds) : MispricingPenalties :=
  let lowActivityPenalty : ℚ :=
    match market.volume24hr with
    | none => 16/100
    | some v =>
      if v < thresholds.lowVolume24h then 16/100
      else if v < thresholds.moderateVolume24h then 8/100
      else 0
  let stalePenalty : ℚ :=
    match computeOrderbookAgeMinutes orderbook nowIso with
    | none => 4/100
    | some ageMinutes =>
      if ageMinutes ≥ thresholds.veryStaleAfterMinutes then 14/100
      else if ageMinutes ≥ thresholds.staleAfterMinutes then 7/100
      else 0
  { stalePenalty := stalePenalty, lowActivityPenalty := lowActivityPenalty }

/-- determineConfidence from the source. -/
def determineConfidence (score edgePct penalties : ℚ) : MispricingConfidence :=
  if score ≥ 70 ∧ edgePct ≥ 3/2 ∧ penalties < 9/100 then .high
  else if score ≥ 45 ∧ edgePct ≥ 3/4 then .medium
  else .low

/-- buildRationale from the source; template-literal formatting is
modelled with toString on the rounded rational. -/
def buildRationale (edgePct : ℚ) (spreadBps : Option ℚ)
    (componentScores : MispricingComponentScores)
    (partitionDislocation : Option ℚ) : List String :=
  let rationale : List String := []
  let rationale :=
    if edgePct ≥ 3/4 then
      rationale ++ [("Fair-value proxy diverges from market by " ++
        toString (round2 edgePct) ++ "%.")]
    else rationale
  let rationale :=
    match spreadBps with
    | some s =>
      if componentScores.spreadQuality ≥ 65/100 then
        rationale ++ [("Spread quality is favorable (" ++
          toString (round0 s) ++ " bps).")]
      else rationale
    | none => rationale
  let rationale :=
    if componentScores.liquidityDepthQuality ≥ 6/10 then
      rationale ++ ["Liquidity and two-sided depth support executable pricing."]
    else rationale
  let rationale :=
    if componentScores.momentumDislocation ≥ 45/100 then
      rationale ++
        ["Recent short-term move looks dislocated versus microstructure baseline."]
    else rationale
  let rationale :=
    match partitionDislocation with
    | some d =>
      if componentScores.relatedMarketConsistency ≥ 35/100 then
        rationale ++ [("Related market partition drift is " ++
          toString (round2 (|d| * 100)) ++ "%.")]
      else rationale
    | none => rationale
  if rationale = [] then
    ["Composite microstructure signals indicate a modest opportunity."]
  else rationale

/-- buildRiskFlags from the source. -/
def buildRiskFlags (spreadBps : Option ℚ) (market : PolymarketMarket)
    (orderbook : Option OrderbookSnapshot) (nowIso : JsStr)
    (confidence : MispricingConfidence) (thresholds : ScoringThresholds)
    (hasMomentumData : Bool) : List String :=
  let riskFlags : List String := []
  let riskFlags :=
    match spreadBps with
    | none => riskFlags ++ ["missing spread data"]
    | some s =>
      if s > 400 then riskFlags ++ ["wide spread execution risk"] else riskFlags
  let riskFlags :=
    match market.liquidity with
    | none => riskFlags ++ ["thin liquidity"]
    | some l => if l < 1000 then riskFlags ++ ["thin liquidity"] else riskFlags
  let riskFlags :=
    match market.volume24hr with
    | none => riskFlags ++ ["low 24h activity"]
    | some v =>
      if v < thresholds.lowVolume24h then riskFlags ++ ["low 24h activity"]
      else riskFlags
  let riskFlags :=
    match computeOrderbookAgeMinutes orderbook nowIso with
    | some ageMinutes =>
      if ageMinutes ≥ thresholds.veryStaleAfterMinutes then
        riskFlags ++ ["stale orderbook snapshot"]
      else riskFlags
    | none => riskFlags
  let riskFlags :=
    if hasMomentumData then riskFlags else riskFlags ++ ["limited momentum history"]
  let riskFlags :=
    if confidence = .low then riskFlags ++ ["low confidence signal"] else riskFlags
  if riskFlags = [] then ["educational signal only"] else riskFlags

/-- Signal and trace pair returned by scoreMispricingCandidate. -/
structure ScoredCandidate where
  signal : MispricingSignal
  trace : MispricingTrace
deriving DecidableEq

/-- scoreMispricingCandidate from the source, with weights and thresholds
as explicit arguments (the source defaults them to DEFAULT_WEIGHTS and
DEFAULT_THRESHOLDS). -/
def scoreMispricingCandidate (log10 : ℚ → ℚ) (market : PolymarketMarket)
    (orderbook : Option OrderbookSnapshot)
    (relatedMarkets : List PolymarketMarket) (nowIso : JsStr)
    (timeHorizonHours : ℚ) (weights : MispricingWeights)
    (thresholds : ScoringThresholds) : ScoredCandidate :=
  let probability := resolveMarketProbability market orderbook
  let marketProb := probability.marketProb
  let spreadBps := probability.spreadBps
  let momentum := computeMomentumDislocation market timeHorizonHours
  let consistency := computePartitionConsistency market marketProb relatedMarkets
  let fairProbProxy := clampProbability
    (marketProb + momentum.fairAdjustment + consistency.fairAdjustment)
  let signedEdge := fairProbProxy - marketProb
  let side : SignalSide := if signedEdge ≥ 0 then .yes else .no
  let edgePct := |signedEdge| * 100
  let componentScores : MispricingComponentScores :=
    { spreadQuality := scoreSpreadQuality spreadBps
      liquidityDepthQuality := scoreLiquidityDepthQuality log10 market orderbook
      momentumDislocation := momentum.score
      relatedMarketConsistency := consistency.score
      edgeMagnitude := clamp (edgePct / 4) 0 1 }
  let penalties := computePenalties market orderbook nowIso thresholds
  let penaltyTotal := penalties.stalePenalty + penalties.lowActivityPenalty
  let weightedScore :=
    componentScores.spreadQuality * weights.spreadQuality +
    componentScores.liquidityDepthQuality * weights.liquidityDepthQuality +
    componentScores.momentumDislocation * weights.momentumDislocation +
    componentScores.relatedMarketConsistency * weights.relatedMarketConsistency +
    componentScores.edgeMagnitude * weights.edgeMagnitude
  let mispricingScore := clamp ((weightedScore - penaltyTotal) * 100) 0 100
  let confidence := determineConfidence mispricingScore edgePct penaltyTotal
  let rationale := buildRationale edgePct spreadBps componentScores
    consistency.partitionDislocation
  let riskFlags := buildRiskFlags spreadBps market orderbook nowIso confidence
    thresholds momentum.hasData
  let signal : MispricingSignal :=
    { marketId := market.id
      marketSlug := market.slug.getD market.id
      side := side
      marketProb := round4 marketProb
      fairProbProxy := round4 fairProbProxy
      edgePct := round2 edgePct
      mispricingScore := round2 mispricingScore
      confidence := confidence
      rationale := rationale
      riskFlags := riskFlags }
  let trace : MispricingTrace :=
    { marketId := signal.marketId
      marketSlug := signal.marketSlug
      marketProb := signal.marketProb
      fairProbProxy := signal.fairProbProxy
      selectedSide := signal.side
      edgePct := signal.edgePct
      componentScores :=
        { spreadQuality := round4 componentScores.spreadQuality
          liquidityDepthQuality := round4 componentScores.liquidityDepthQuality
          momentumDislocation := round4 componentScores.momentumDislocation
          relatedMarketConsistency :=
            round4 componentScores.relatedMarketConsistency
          edgeMagnitude := round4 componentScores.edgeMagnitude }
      penalties :=
        { stalePenalty := round4 penalties.stalePenalty
          lowActivityPenalty := round4 penalties.lowActivityPenalty }
      spreadBps := spreadBps.map round2
      liquidity := market.liquidity
      volume24h := market.volume24hr
      orderbookAgeMinutes := computeOrderbookAgeMinutes orderbook nowIso
      peerCount := consistency.peerCount
      partitionDislocation := consistency.partitionDislocation.map round4
      rationale := rationale
      riskFlags := riskFlags }
  { signal := signal, trace := trace }

/-- One candidate of a ranking batch. -/
structure RankCandidate where
  market : PolymarketMarket
  orderbook : Option OrderbookSnapshot
  relatedMarkets : List PolymarketMarket
deriving DecidableEq

/-- RankMispricingSignalsInput from the source; optional fields are
Options (the source defaults timeHorizonHours to 24, minEdgePct to 0,
limit to 20 and includeTrace to false). -/
structure RankMispricingSignalsInput where
  candidates : List RankCandidate
  nowIso : JsStr
  timeHorizonHours : Option ℚ
  minVolume : Option ℚ
  maxSpreadBps : Option ℚ
  minEdgePct : Option ℚ
  limit : Option ℤ
  includeTrace : Bool
deriving DecidableEq

/-- RankMispricingSignalsResult from the source. -/
structure RankMispricingSignalsResult where
  signals : List MispricingSignal
  traces : Option (List MispricingTrace)
deriving DecidableEq

/-- Volume pre-filter of the ranking loop: the source drops a candidate
when (volume24hr ?? Number.NEGATIVE_INFINITY) < minVolume, and negative
infinity is below every finite bound, so a missing volume is dropped
whenever minVolume is specified. -/
def volumePreFilterDrops (minVolume : Option ℚ) (market : PolymarketMarket) :
    Bool :=
  match minVolume with
  | none => false
  | some v =>
    match market.volume24hr with
    | some vol => decide (vol < v)
    | none => true

/-- Spread pre-filter of the ranking loop: drop when a maximum is
specified, a preview spread resolves, and it exceeds the maximum. -/
def spreadPreFilterDrops (maxSpreadBps : Option ℚ) (market : PolymarketMarket)
    (orderbook : Option OrderbookSnapshot) : Bool :=
  match maxSpreadBps with
  | none => false
  | some bound =>
    match resolveSpreadBps market orderbook with
    | none => false
    | some preview => decide (preview > bound)

/-- Loop body of rankMispricingSignals for one candidate: volume
pre-filter, spread pre-filter, scoring, then the minEdgePct post-filter
with the SCORE_EPSILON tolerance. -/
def rankCandidate (log10 : ℚ → ℚ)
    (minVolume maxSpreadBps minEdgePct : Option ℚ) (nowIso : JsStr)
    (timeHorizonHours : ℚ) (candidate : RankCandidate) :
    Option ScoredCandidate :=
  if volumePreFilterDrops minVolume candidate.market then none
  else if spreadPreFilterDrops maxSpreadBps candidate.market candidate.orderbook
  then none
  else
    let result := scoreMispricingCandidate log10 candidate.market
      candidate.orderbook candidate.relatedMarkets nowIso timeHorizonHours
      DEFAULT_WEIGHTS DEFAULT_THRESHOLDS
    if result.signal.edgePct + SCORE_EPSILON < minEdgePct.getD 0 then none
    else some result

/-- Scored list accumulated by the ranking loop, in candidate order. -/
def rankScored (log10 : ℚ → ℚ) (input : RankMispricingSignalsInput) :
    List ScoredCandidate :=
  input.candidates.filterMap
    (rankCandidate log10 input.minVolume input.maxSpreadBps input.minEdgePct
      input.nowIso (input.timeHorizonHours.getD 24))

/-- Total preorder induced by the sort comparator of the source
(descending mispricingScore, then descending edgePct, then ascending
marketSlug; localeCompare is modelled as lexicographic string order):
scoredRel a b holds exactly when the comparator puts a no later than b. -/
def scoredRel (a b : ScoredCandidate) : Prop :=
  b.signal.mispricingScore < a.signal.mispricingScore ∨
  (b.signal.mispricingScore = a.signal.mispricingScore ∧
    (b.signal.edgePct < a.signal.edgePct ∨
      (b.signal.edgePct = a.signal.edgePct ∧
        a.signal.marketSlug ≤ b.signal.marketSlug)))

instance : DecidableRel scoredRel := fun a b => by
  unfold scoredRel; exact inferInstance

instance : IsTotal ScoredCandidate scoredRel := by
  constructor
  intro a b
  rcases lt_trichotomy b.signal.mispricingScore a.signal.mispricingScore with
    h | h | h
  · exact Or.inl (Or.inl h)
  · rcases lt_trichotomy b.signal.edgePct a.signal.edgePct with h2 | h2 | h2
    · exact Or.inl (Or.inr ⟨h, Or.inl h2⟩)
    · rcases le_total a.signal.marketSlug b.signal.marketSlug with h3 | h3
      · exact Or.inl (Or.inr ⟨h, Or.inr ⟨h2, h3⟩⟩)
      · exact Or.inr (Or.inr ⟨h.symm, Or.inr ⟨h2.symm, h3⟩⟩)
    · exact Or.inr (Or.inr ⟨h.symm, Or.inl h2⟩)
  · exact Or.inr (Or.inl h)

instance : IsTrans ScoredCandidate scoredRel := by
  constructor
  intro a b c hab hbc
  rcases hab with h1 | ⟨e1, i1⟩
  · rcases hbc with h2 | ⟨e2, _⟩
    · exact Or.inl (h2.trans h1)
    · exact Or.inl (e2.trans_lt h1)
  · rcases hbc with h2 | ⟨e2, i2⟩
    · exact Or.inl (h2.trans_eq e1)
    · refine Or.inr ⟨e2.trans e1, ?_⟩
      rcases i1 with j1 | ⟨f1, s1⟩
      · rcases i2 with j2 | ⟨f2, _⟩
        · exact Or.inl (j2.trans j1)
        · exact Or.inl (f2.trans_lt j1)
      · rcases i2 with j2 | ⟨f2, s2⟩
        · exact Or.inl (j2.trans_eq f1)
        · exact Or.inr ⟨f2.trans f1, s1.trans s2⟩

/-- rankMispricingSignals from the source: filter and score (rankScored),
sort with the comparator (Array.prototype.sort with a consistent
comparator is a stable sort by the induced preorder, modelled by the
stable List.insertionSort), truncate with slice(0, Math.max(0, limit)),
and project signals and, on request, traces. -/
def rankMispricingSignals (log10 : ℚ → ℚ)
    (input : RankMispricingSignalsInput) : RankMispricingSignalsResult :=
  let sorted := List.insertionSort scoredRel (rankScored log10 input)
  let trimmed := sorted.take (max 0 (input.limit.getD 20)).toNat
  { signals := trimmed.map (·.signal)
    traces := if input.includeTrace then some (trimmed.map (·.trace)) else none }

/-- JavaScript number as validated by the scan parameter layer: a finite
rational or one of the non-finite values. -/
inductive JsNum where
  | num (q : ℚ)
  | nan
  | posInf
  | negInf
deriving DecidableEq

/-- Number.isFinite. -/
def JsNum.isFinite : JsNum → Bool
  | .num _ => true
  | _ => false

/-- Number.isInteger. -/
def JsNum.isInteger : JsNum → Bool
  | .num q => q.den == 1
  | _ => false

/-- DEFAULT_LIMIT from polymarket/scan.ts. -/
def DEFAULT_LIMIT : ℚ := 20

/-- MAX_LIMIT from polymarket/scan.ts. -/
def MAX_LIMIT : ℚ := 50

/-- DEFAULT_MAX_SPREAD_BPS from polymarket/scan.ts. -/
def DEFAULT_MAX_SPREAD_BPS : ℚ := 800

/-- DEFAULT_TIME_HORIZON_HOURS from polymarket/scan.ts. -/
def DEFAULT_TIME_HORIZON_HOURS : ℚ := 24

/-- MIN_TIME_HORIZON_HOURS from polymarket/scan.ts. -/
def MIN_TIME_HORIZON_HOURS : ℚ := 1

/-- MAX_TIME_HORIZON_HOURS from polymarket/scan.ts. -/
def MAX_TIME_HORIZON_HOURS : ℚ := 168

/-- DEFAULT_CONCURRENCY from polymarket/scan.ts. -/
def DEFAULT_CONCURRENCY : ℚ := 6

/-- MAX_CONCURRENCY from polymarket/scan.ts. -/
def MAX_CONCURRENCY : ℚ := 12

/-- normalizePositiveInteger from polymarket/scan.ts: take the provided
value or the fallback, throw unless it is a finite positive integer, and
cap it at the given maximum.  In the non-throwing branch the value is
the finite q, with q.den = 1 encoding Number.isInteger and 0 < q the
negation of the rejected q <= 0. -/
def normalizePositiveInteger (value : Option JsNum) (fallback : ℚ)
    (maxVal : Option ℚ) : Except String ℚ :=
  match value.getD (.num fallback) with
  | .num q =>
    if q.den = 1 ∧ 0 < q then
      .ok (match maxVal with | none => q | some m => min q m)
    else .error ("limit and concurrency must be positive integers.")
  | _ => .error ("limit and concurrency must be positive integers.")

/-- normalizePositiveNumber from polymarket/scan.ts. -/
def normalizePositiveNumber (value : Option JsNum) (fallback : ℚ) :
    Except String ℚ :=
  match value.getD (.num fallback) with
  | .num q =>
    if 0 < q then .ok q
    else .error ("maxSpreadBps must be a positive number.")
  | _ => .error ("maxSpreadBps must be a positive number.")

/-- normalizeNonNegativeNumber from polymarket/scan.ts. -/
def normalizeNonNegativeNumber (value : Option JsNum) (fallback : ℚ) :
    Except String ℚ :=
  match value.getD (.num fallback) with
  | .num q =>
    if 0 ≤ q then .ok q
    else .error ("minVolume must be a non-negative number.")
  | _ => .error ("minVolume must be a non-negative number.")

/-- normalizeBoundedNumber from polymarket/scan.ts: throw unless finite
and positive, then clamp into [lo, hi]. -/
def normalizeBoundedNumber (value : Option JsNum) (fallback lo hi : ℚ) :
    Except String ℚ :=
  match value.getD (.num fallback) with
  | .num q =>
    if 0 < q then .ok (min hi (max lo q))
    else .error ("timeHorizonHours must be a positive number.")
  | _ => .error ("timeHorizonHours must be a positive number.")

/-- PolymarketScanInput from polymarket/scan.ts. -/
structure PolymarketScanInput where
  query : Option String
  limit : Option JsNum
  minVolume : Option JsNum
  maxSpreadBps : Option JsNum
  timeHorizonHours : Option JsNum
  concurrency : Option JsNum
  includeTrace : Option Bool
deriving DecidableEq

/-- NormalizedScanInput from polymarket/scan.ts. -/
structure NormalizedScanInput where
  query : Option String
  limit : ℚ
  minVolume : ℚ
  maxSpreadBps : ℚ
  timeHorizonHours : ℚ
  concurrency : ℚ
  includeTrace : Bool
deriving DecidableEq

/-- normalizeInput from polymarket/scan.ts, in source evaluation order;
a throw from any field validator aborts the whole normalization. -/
def normalizeInput (input : PolymarketScanInput) :
    Except String NormalizedScanInput := do
  let limit ← normalizePositiveInteger input.limit DEFAULT_LIMIT (some MAX_LIMIT)
  let minVolume ← normalizeNonNegativeNumber input.minVolume 0
  let maxSpreadBps ← normalizePositiveNumber input.maxSpreadBps
    DEFAULT_MAX_SPREAD_BPS
  let timeHorizonHours ← normalizeBoundedNumber input.timeHorizonHours
    DEFAULT_TIME_HORIZON_HOURS MIN_TIME_HORIZON_HOURS MAX_TIME_HORIZON_HOURS
  let concurrency ← normalizePositiveInteger input.concurrency
    DEFAULT_CONCURRENCY (some MAX_CONCURRENCY)
  return {
    query := input.query
    limit := limit
    minVolume := minVolume
    maxSpreadBps := maxSpreadBps
    timeHorizonHours := timeHorizonHours
    concurrency := concurrency
    includeTrace := input.includeTrace.getD false }

/-- scanPolymarketMispricing from polymarket/scan.ts, at the granularity
the validation claim needs: normalizeInput runs first inside the try
block; rest abstracts the entire remaining continuation (query
normalization, market listing, order-book fetching and ranking, which
perform network I/O and are outside the pure fragment); the catch turns
any thrown error into the error result, modelled by Except. -/
def scanPipeline {α : Type} (rest : NormalizedScanInput → Except String α)
    (input : PolymarketScanInput) : Except String α :=
  match normalizeInput input with
  | .error e => .error e
  | .ok normalized => rest normalized

/-- A provided scan parameter that normalizePositiveInteger rejects:
non-finite, non-integer, or at most zero. -/
def providedNonPositiveInteger (value : Option JsNum) : Prop :=
  ∃ n, value = some n ∧
    (n.isFinite = false ∨ n.isInteger = false ∨ ∃ q, n = .num q ∧ q ≤ 0)

/-- A provided scan parameter that is a negative (finite) number. -/
def providedNegative (value : Option JsNum) : Prop :=
  ∃ q, value = some (JsNum.num q) ∧ q < 0

/-- A provided scan parameter that is a non-positive (finite) number. -/
def providedNonPositive (value : Option JsNum) : Prop :=
  ∃ q, value = some (JsNum.num q) ∧ q ≤ 0

instance {e a : Type} [DecidableEq e] [DecidableEq a] :
    DecidableEq (Except e a) := fun x y =>
  match x, y with
  | .error u, .error w =>
    if h : u = w then .isTrue (by rw [h]) else .isFalse (fun hc => h (by cases hc; rfl))
  | .error _, .ok _ => .isFalse (fun hc => Except.noConfusion hc)
  | .ok _, .error _ => .isFalse (fun hc => Except.noConfusion hc)
  | .ok u, .ok w =>
    if h : u = w then .isTrue (by rw [h]) else .isFalse (fun hc => h (by cases hc; rfl))

/-- Market record with every nullable field absent, used as the base of
the concrete test fixtures below. -/
def baseMarket (id : String) : PolymarketMarket :=
  { id := id
    conditionId := none
    slug := none
    question := none
    eventId := none
    outcomes := []
    outcomePrices := []
    active := true
    closed := false
    acceptingOrders := true
    endDate := none
    volume := none
    volume24hr := none
    liquidity := none
    bestBid := none
    bestAsk := none
    spread := none
    oneHourPriceChange := none
    oneDayPriceChange := none
    oneWeekPriceChange := none
    oneMonthPriceChange := none
    lastTradePrice := none
    clobTokenIds := [] }

/-- First sibling of the partition fixture: YES probability 0.30. -/
def exSibA : PolymarketMarket :=
  { baseMarket "sib-a" with
    outcomes := ["Yes", "No"]
    outcomePrices := [3/10, 7/10] }

/-- Second sibling of the partition fixture: YES probability 0.30. -/
def exSibB : PolymarketMarket :=
  { baseMarket "sib-b" with
    outcomes := ["Yes", "No"]
    outcomePrices := [3/10, 7/10] }

/-- Third sibling of the partition fixture: YES probability 0.30. -/
def exSibC : PolymarketMarket :=
  { baseMarket "sib-c" with
    outcomes := ["Yes", "No"]
    outcomePrices := [3/10, 7/10] }

/-- Momentum fixture: oneHourPriceChange 0.05, oneDayPriceChange null. -/
def exMomentumMarket : PolymarketMarket :=
  { baseMarket "momentum" with oneHourPriceChange := some (1/20) }

/-- Liquidity fixture: no order book and a market with null bestBid and
bestAsk (and null liquidity and volume, so only the two-sided term can
contribute). -/
def exNoQuoteMarket : PolymarketMarket := baseMarket "no-quote"

/-- Concrete log10 model used by witnesses (its values are irrelevant to
every claim proved below). -/
def zeroLog : ℚ → ℚ := fun _ => 0

/-- Timestamp string whose Number() value is 10^16 epoch milliseconds:
finite, positive, and beyond the maximal ECMAScript date range. -/
def exHugeNumericTimestamp : JsStr := .raw (some (10 ^ 16)) none 0

/-- Order-book payload of the round-trip example: one bid at 0.42, one
ask at 0.46, unparseable timestamp (passed through unchanged). -/
def exRoundTripPayload : PolymarketOrderbookSummary :=
  { market := "m"
    assetId := "tok"
    timestamp := .raw none none 0
    hash := "h"
    bids := [{ price := 21/50, size := 10 }]
    asks := [{ price := 23/50, size := 10 }]
    bestBid := none
    bestAsk := none
    minOrderSize := none
    tickSize := none
    negRisk := false }

/-- Order-book payload with a tiny bid: best bid 0.001, best ask 0.01,
so the unclamped average 0.0055 lies below the 0.01 clamp bound. -/
def exTinyPricePayload : PolymarketOrderbookSummary :=
  { exRoundTripPayload with
    bids := [{ price := 1/1000, size := 1 }]
    asks := [{ price := 1/100, size := 1 }] }

/-- Ranking fixture: a market whose spread cannot be resolved (no order
book, null spread field, null quote). -/
def exNullSpreadMarket : PolymarketMarket :=
  { baseMarket "null-spread" with
    slug := some "null-spread-slug"
    outcomes := ["Yes", "No"]
    outcomePrices := [3/10, 7/10] }

/-- Ranking input containing only the null-spread candidate, with a
maxSpreadBps of 0 specified. -/
def exNullSpreadCandidate : RankCandidate :=
  { market := exNullSpreadMarket
    orderbook := none
    relatedMarkets := [] }

/-- Ranking input containing only the null-spread candidate. -/
def exNullSpreadInput : RankMispricingSignalsInput :=
  { candidates := [exNullSpreadCandidate]
    nowIso := .raw none none 1
    timeHorizonHours := none
    minVolume := none
    maxSpreadBps := some 0
    minEdgePct := none
    limit := none
    includeTrace := false }

/-- Ranking input containing one candidate with null volume24hr, with
minVolume 0 specified. -/
def exNullVolumeCandidate : RankCandidate :=
  { market := baseMarket "null-volume"
    orderbook := none
    relatedMarkets := [] }

/-- Ranking input containing one candidate with null volume24hr. -/
def exNullVolumeInput : RankMispricingSignalsInput :=
  { candidates := [exNullVolumeCandidate]
    nowIso := .raw none none 0
    timeHorizonHours := none
    minVolume := some 0
    maxSpreadBps := none
    minEdgePct := none
    limit := none
    includeTrace := false }

/-- Ranking input with no candidates, limit 0 and traces requested. -/
def exEmptyRankInput : RankMispricingSignalsInput :=
  { candidates := []
    nowIso := .raw none none 0
    timeHorizonHours := none
    minVolume := none
    maxSpreadBps := none
    minEdgePct := none
    limit := some 0
    includeTrace := true }

/-- Scan input with a provided negative limit. -/
def exBadScanInput : PolymarketScanInput :=
  { query := none
    limit := some (.num (-1))
    minVolume := none
    maxSpreadBps := none
    timeHorizonHours := none
    concurrency := none
    includeTrace := none }

theorem clamp_mem {lo hi : ℚ} (x : ℚ) (h : lo ≤ hi) :
    lo ≤ clamp x lo hi ∧ clamp x lo hi ≤ hi := by
  unfold clamp
  constructor
  · exact le_min h (le_max_left lo x)
  · exact min_le_left hi _

theorem clampProbability_mem (x : ℚ) :
    1/100 ≤ clampProbability x ∧ clampProbability x ≤ 99/100 :=
  clamp_mem x (by norm_num)

theorem round4_mem (x : ℚ) (h1 : 1/100 ≤ x) (h2 : x ≤ 99/100) :
    1/100 ≤ round4 x ∧ round4 x ≤ 99/100 := by
  unfold round4 jsRound
  constructor
  · have h : (100 : ℤ) ≤ ⌊x * 10000 + 1/2⌋ := by
      apply Int.le_floor.mpr
      push_cast
      linarith
    have h' : (100 : ℚ) ≤ (⌊x * 10000 + 1/2⌋ : ℚ) := by exact_mod_cast h
    linarith
  · have h : ⌊x * 10000 + 1/2⌋ < (9901 : ℤ) := by
      apply Int.floor_lt.mpr
      push_cast
      linarith
    have h' : (⌊x * 10000 + 1/2⌋ : ℚ) ≤ 9900 := by exact_mod_cast Int.lt_add_one_iff.mp h
    linarith

theorem round4_clampProbability_mem (x : ℚ) :
    1/100 ≤ round4 (clampProbability x) ∧ round4 (clampProbability x) ≤ 99/100 :=
  round4_mem _ (clampProbability_mem x).1 (clampProbability_mem x).2

theorem ite_guard_comb {α : Type} {c1 c2 c3 c4 : Prop} [Decidable c1]
    [Decidable c2] [Decidable c3] [Decidable c4] (r f g : α)
    (hfg : ¬c3 → f = g) :
    (if c1 then r else if c2 then r else if c3 ∨ c4 then r else f) =
    (if c1 ∨ c2 ∨ c3 ∨ c4 then r else g) := by
  by_cases h1 : c1
  · simp [h1]
  · by_cases h2 : c2
    · simp [h1, h2]
    · by_cases h3 : c3
      · simp [h1, h2, h3]
      · by_cases h4 : c4
        · simp [h1, h2, h3, h4]
        · simp [h1, h2, h3, h4, hfg h3]

/-- C1: for every market, order-book snapshot (possibly null), related
markets, now instant, time horizon (and any weights, thresholds and
log10 model), the emitted signal has marketProb and fairProbProxy in
[0.01, 0.99] after the 4-decimal rounding. -/
theorem scoreMispricingCandidate_prob_clamped (log10 : ℚ → ℚ)
    (market : PolymarketMarket) (orderbook : Option OrderbookSnapshot)
    (relatedMarkets : List PolymarketMarket) (nowIso : JsStr)
    (timeHorizonHours : ℚ) (weights : MispricingWeights)
    (thresholds : ScoringThresholds) :
    (1/100 ≤ (scoreMispricingCandidate log10 market orderbook relatedMarkets
        nowIso timeHorizonHours weights thresholds).signal.marketProb ∧
      (scoreMispricingCandidate log10 market orderbook relatedMarkets
        nowIso timeHorizonHours weights thresholds).signal.marketProb ≤ 99/100) ∧
    (1/100 ≤ (scoreMispricingCandidate log10 market orderbook relatedMarkets
        nowIso timeHorizonHours weights thresholds).signal.fairProbProxy ∧
      (scoreMispricingCandidate log10 market orderbook relatedMarkets
        nowIso timeHorizonHours weights thresholds).signal.fairProbProxy ≤ 99/100) :=
  ⟨round4_clampProbability_mem _, round4_clampProbability_mem _⟩

/-- C2: the partition estimator agrees everywhere with the specification
formula (combined guard for fewer than 3 deduplicated active peers,
fewer than 3 usable YES probabilities, or a sum outside [0.6, 1.4];
otherwise dislocation, share, score and fairAdjustment as specified),
and the concrete three-sibling 0.30/0.30/0.30 event yields partition
dislocation 0.1 and a positive fairAdjustment for each of the three. -/
theorem computePartitionConsistency_correct :
    (∀ (market : PolymarketMarket) (marketProb : ℚ)
      (relatedMarkets : List PolymarketMarket),
      computePartitionConsistency market marketProb relatedMarkets =
        partitionConsistencySpec market marketProb relatedMarkets) ∧
    ((computePartitionConsistency exSibA
        (resolveMarketProbability exSibA none).marketProb
        [exSibB, exSibC]).partitionDislocation = some (1/10) ∧
      0 < (computePartitionConsistency exSibA
        (resolveMarketProbability exSibA none).marketProb
        [exSibB, exSibC]).fairAdjustment) ∧
    ((computePartitionConsistency exSibB
        (resolveMarketProbability exSibB none).marketProb
        [exSibA, exSibC]).partitionDislocation = some (1/10) ∧
      0 < (computePartitionConsistency exSibB
        (resolveMarketProbability exSibB none).marketProb
        [exSibA, exSibC]).fairAdjustment) ∧
    ((computePartitionConsistency exSibC
        (resolveMarketProbability exSibC none).marketProb
        [exSibA, exSibB]).partitionDislocation = some (1/10) ∧
      0 < (computePartitionConsistency exSibC
        (resolveMarketProbability exSibC none).marketProb
        [exSibA, exSibB]).fairAdjustment) := by
  refine ⟨?_, by decide, by decide, by decide⟩
  intro m p rel
  unfold computePartitionConsistency partitionConsistencySpec
  dsimp only
  refine ite_guard_comb _ _ _ (fun h3 => ?_)
  have hs : SCORE_EPSILON ≤ (((dedupeById (m :: rel)).filter
      (fun item => item.active && !item.closed)).filterMap
        getYesProbability).foldl (· + ·) 0 := by
    unfold SCORE_EPSILON
    linarith [not_lt.mp h3]
  rw [max_eq_left hs]

theorem bestBidStep_some (b : ℚ) (lv : PolymarketOrderLevel) :
    bestBidStep (some b) lv = some (max b lv.price) := by
  unfold bestBidStep
  dsimp only
  split_ifs with h
  · rw [max_eq_right h.le]
  · rw [max_eq_left (not_lt.mp h)]

theorem bestAskStep_some (b : ℚ) (lv : PolymarketOrderLevel) :
    bestAskStep (some b) lv = some (min b lv.price) := by
  unfold bestAskStep
  dsimp only
  split_ifs with h
  · rw [min_eq_right h.le]
  · rw [min_eq_left (not_lt.mp h)]

theorem foldl_bestBidStep (l : List PolymarketOrderLevel) (b : ℚ) :
    l.foldl bestBidStep (some b) = some ((l.map (·.price)).foldl max b) := by
  induction l generalizing b with
  | nil => rfl
  | cons x t ih => simp [List.foldl_cons, bestBidStep_some, ih, List.map_cons]

theorem foldl_bestAskStep (l : List PolymarketOrderLevel) (b : ℚ) :
    l.foldl bestAskStep (some b) = some ((l.map (·.price)).foldl min b) := by
  induction l generalizing b with
  | nil => rfl
  | cons x t ih => simp [List.foldl_cons, bestAskStep_some, ih, List.map_cons]

theorem findBestBid_eq_max? (orderbook : PolymarketOrderbookSummary) :
    findBestBid orderbook = (orderbook.bids.map (·.price)).max? := by
  unfold findBestBid
  cases hb : orderbook.bids with
  | nil => rfl
  | cons x t =>
    simp only [hb, List.head?_cons, List.foldl_cons, List.map_cons,
      List.max?, reduceCtorEq, if_false]
    dsimp only [Option.map]
    rw [bestBidStep_some, max_self, foldl_bestBidStep]

theorem findBestAsk_eq_min? (orderbook : PolymarketOrderbookSummary) :
    findBestAsk orderbook = (orderbook.asks.map (·.price)).min? := by
  unfold findBestAsk
  cases hb : orderbook.asks with
  | nil => rfl
  | cons x t =>
    simp only [hb, List.head?_cons, List.foldl_cons, List.map_cons,
      List.min?, reduceCtorEq, if_false]
    dsimp only [Option.map]
    rw [bestAskStep_some, min_self, foldl_bestAskStep]

/-- C6 (counterexample): for the payload with one bid at 0.001 and one
ask at 0.01, the stored midpoint is the clamp result 0.01, but spreadBps
is 180000/11 = 16363.63…, computed from the unclamped average 0.0055 —
not the 9000 that the claim formula (ask − bid) / midpoint × 10000 with
the clamped midpoint 0.01 predicts. -/
theorem toOrderbookSnapshot_spread_not_clamped_midpoint :
    (toOrderbookSnapshot exTinyPricePayload).map
      (fun s => (s.midpoint, s.spreadBps)) =
      .ok (some (1/100), some (180000/11)) ∧
    (180000/11 : ℚ) ≠ (1/100 - 1/1000) / (1/100) * 10000 := by
  constructor
  · decide
  · decide

/-- C6 (amended): whenever the timestamp normalization returns (which it
does unless the raw timestamp is a positive numeric out of date range),
the snapshot has best bid the maximum bid price (none on empty bids),
best ask the minimum ask price (none on empty asks), midpoint the
clamped average of the two when both are present (else none), and
spreadBps computed from the UNCLAMPED average m: max(0, (ask − bid) / m
× 10000) when both sides are present and m > 0, else none; the concrete
round-trip example yields bestBid 0.42, bestAsk 0.46, midpoint 0.44 and
spreadBps 10000/11 ≈ 909.09. -/
theorem toOrderbookSnapshot_spec :
    (∀ (orderbook : PolymarketOrderbookSummary) (t : JsStr),
      normalizeTimestamp orderbook.timestamp = .ok t →
      toOrderbookSnapshot orderbook = .ok {
        tokenId := orderbook.assetId
        bestBid := (orderbook.bids.map (·.price)).max?
        bestAsk := (orderbook.asks.map (·.price)).min?
        midpoint :=
          match (orderbook.bids.map (·.price)).max?,
            (orderbook.asks.map (·.price)).min? with
          | some b, some a => some (clampProbability ((b + a) / 2))
          | _, _ => none
        spreadBps :=
          match (orderbook.bids.map (·.price)).max?,
            (orderbook.asks.map (·.price)).min? with
          | some b, some a =>
            if (b + a) / 2 > 0 then
              some (max 0 ((a - b) / ((b + a) / 2) * 10000))
            else none
          | _, _ => none
        timestamp := t }) ∧
    (toOrderbookSnapshot exRoundTripPayload).map
      (fun s => (s.bestBid, s.bestAsk, s.midpoint, s.spreadBps)) =
      .ok (some (21/50), some (23/50), some (11/25), some (10000/11)) := by
  constructor
  · intro ob t h
    unfold toOrderbookSnapshot
    rw [findBestBid_eq_max? ob, findBestAsk_eq_min? ob]
    simp only [bind, Except.bind, h]
    cases hb : (ob.bids.map (·.price)).max? with
    | none => rfl
    | some b =>
      cases ha : (ob.asks.map (·.price)).min? with
      | none => rfl
      | some a =>
        dsimp only
        split_ifs with hm
        · rfl
        · rfl
  · decide

theorem toOrderbookSnapshot_spec_witness :
    toOrderbookSnapshot exRoundTripPayload = .ok {
      tokenId := exRoundTripPayload.assetId
      bestBid := (exRoundTripPayload.bids.map (·.price)).max?
      bestAsk := (exRoundTripPayload.asks.map (·.price)).min?
      midpoint :=
        match (exRoundTripPayload.bids.map (·.price)).max?,
          (exRoundTripPayload.asks.map (·.price)).min? with
        | some b, some a => some (clampProbability ((b + a) / 2))
        | _, _ => none
      spreadBps :=
        match (exRoundTripPayload.bids.map (·.price)).max?,
          (exRoundTripPayload.asks.map (·.price)).min? with
        | some b, some a =>
          if (b + a) / 2 > 0 then
            some (max 0 ((a - b) / ((b + a) / 2) * 10000))
          else none
        | _, _ => none
      timestamp := JsStr.raw none none 0 } :=
  toOrderbookSnapshot_spec.1 exRoundTripPayload (JsStr.raw none none 0)
    (by decide)

/-- C5 (counterexample): a raw timestamp string whose Number() value is
10^16 (finite, positive) drives normalizeTimestamp into
new Date(10^16).toISOString(), and 10^16 exceeds the maximal ECMAScript
time value 8.64e15, so the call throws a RangeError instead of
returning. -/
theorem normalizeTimestamp_throws_on_huge_numeric :
    normalizeTimestamp exHugeNumericTimestamp = .error () := by decide

/-- C5 (amended): normalizeTimestamp terminates on every string, and it
never throws provided every positive finite Number() value and every
finite Date.parse value lies within the ECMAScript date range (at most
8.64e15 in magnitude; real Date.parse results always are): a positive
finite numeric string becomes the ISO instant of its truncated epoch
value, otherwise a string with a finite Date.parse becomes the ISO
instant of that value, otherwise the string passes through unchanged.
Without the range premise on the numeric branch it can throw (see the
counterexample). -/
theorem normalizeTimestamp_total_in_range (s : JsStr)
    (hnum : ∀ v, s.toNumber = some v → 0 < v → v ≤ maxTimeMs)
    (hparse : ∀ p, s.dateParse = some p → |p| ≤ maxTimeMs) :
    (∃ v, s.toNumber = some v ∧ 0 < v ∧
      normalizeTimestamp s = .ok (.iso (jsTrunc v))) ∨
    ((∀ v, s.toNumber = some v → ¬ 0 < v) ∧
      ∃ p, s.dateParse = some p ∧
        normalizeTimestamp s = .ok (.iso (jsTrunc p))) ∨
    ((∀ v, s.toNumber = some v → ¬ 0 < v) ∧ s.dateParse = none ∧
      normalizeTimestamp s = .ok s) := by
  have tail : ∀ (_ : ∀ v, s.toNumber = some v → ¬ 0 < v),
      (∀ p, s.dateParse = some p → normalizeTimestampTail s = .ok (.iso (jsTrunc p))) ∧
      (s.dateParse = none → normalizeTimestampTail s = .ok s) := by
    intro _
    constructor
    · intro p hp
      unfold normalizeTimestampTail
      rw [hp]
      dsimp only
      unfold jsDateToIso
      rw [if_pos (hparse p hp)]
    · intro hp
      unfold normalizeTimestampTail
      rw [hp]
  unfold normalizeTimestamp
  cases hv : s.toNumber with
  | some v =>
    by_cases hpos : 0 < v
    · left
      refine ⟨v, rfl, hpos, ?_⟩
      dsimp only
      rw [if_pos hpos]
      unfold jsDateToIso
      rw [if_pos (by rw [abs_of_pos hpos]; exact hnum v hv hpos)]
    · have hnopos : ∀ w, s.toNumber = some w → ¬ 0 < w := by
        intro w hw
        rw [hv] at hw
        cases hw
        exact hpos
      dsimp only
      rw [if_neg hpos]
      cases hp : s.dateParse with
      | some p =>
        exact Or.inr (Or.inl ⟨fun w hw => by cases hw; exact hpos, p, rfl,
          (tail hnopos).1 p hp⟩)
      | none =>
        exact Or.inr (Or.inr ⟨fun w hw => by cases hw; exact hpos, rfl,
          (tail hnopos).2 hp⟩)
  | none =>
    have hnopos : ∀ w, s.toNumber = some w → ¬ 0 < w := by
      intro w hw
      rw [hv] at hw
      cases hw
    cases hp : s.dateParse with
    | some p =>
      refine Or.inr (Or.inl ⟨?_, p, rfl, (tail hnopos).1 p hp⟩)
      intro w hw
      exact absurd hw (by simp)
    | none =>
      refine Or.inr (Or.inr ⟨?_, rfl, (tail hnopos).2 hp⟩)
      intro w hw
      exact absurd hw (by simp)

theorem normalizeTimestamp_total_in_range_witness :
    (∃ v, (JsStr.raw (some 1000) none 0).toNumber = some v ∧ 0 < v ∧
      normalizeTimestamp (JsStr.raw (some 1000) none 0) =
        .ok (.iso (jsTrunc v))) ∨
    ((∀ v, (JsStr.raw (some 1000) none 0).toNumber = some v → ¬ 0 < v) ∧
      ∃ p, (JsStr.raw (some 1000) none 0).dateParse = some p ∧
        normalizeTimestamp (JsStr.raw (some 1000) none 0) =
          .ok (.iso (jsTrunc p))) ∨
    ((∀ v, (JsStr.raw (some 1000) none 0).toNumber = some v → ¬ 0 < v) ∧
      (JsStr.raw (some 1000) none 0).dateParse = none ∧
      normalizeTimestamp (JsStr.raw (some 1000) none 0) =
        .ok (JsStr.raw (some 1000) none 0)) :=
  normalizeTimestamp_total_in_range (JsStr.raw (some 1000) none 0)
    (fun v hv _ => by cases hv; decide)
    (fun p hp => by cases hp)

/-- C7 (counterexample): with oneHourPriceChange 0.05, oneDayPriceChange
null and horizon 1, the code returns score 5/6 and fairAdjustment
−7/400 = −0.0175, whereas a composite of 0.05 × 0.8 = 0.04 (the value
the claim states) would give score clamp(0.04/0.06) = 2/3 and
fairAdjustment clamp(−0.04 × 0.35) = −0.014: the claimed composite does
not match the code on either observable output. -/
theorem computeMomentumDislocation_ne_claimed_composite :
    computeMomentumDislocation exMomentumMarket 1 =
      { score := 5/6, fairAdjustment := -(7/400), hasData := true } ∧
    (5/6 : ℚ) ≠ clamp (|(1/20) * (4/5)| / (6/100)) 0 1 ∧
    (-(7/400) : ℚ) ≠
      clamp (-((1/20) * (4/5)) * (35/100)) (-(12/100)) (12/100) := by
  refine ⟨by decide, by decide, by decide⟩

/-- C7 (amended): with oneHourPriceChange 0.05, oneDayPriceChange null
and timeHorizonHours 1, the estimator reports data present, the
composite change is exactly 0.05 — hourWeight 0.8 applied to the
one-hour change plus dayWeight 0.2 applied to the same one-hour change
as fallback, 0.05×0.8 + 0.05×0.2 — and the fairAdjustment
clamp(−0.05 × 0.35) = −0.0175 is nonzero and strictly negative. -/
theorem computeMomentumDislocation_example :
    computeMomentumDislocation exMomentumMarket 1 =
      { score := clamp ((1/20 * (4/5) + 1/20 * (1/5)) / (6/100)) 0 1
        fairAdjustment := clamp (-(1/20 * (4/5) + 1/20 * (1/5)) * (35/100))
          (-(12/100)) (12/100)
        hasData := true } ∧
    (computeMomentumDislocation exMomentumMarket 1).fairAdjustment < 0 := by
  refine ⟨by decide, by decide⟩

/-- C4 (code evaluation at the failing input): with orderbook null and a
market whose bestBid, bestAsk, liquidity and volume24hr are all null,
scoreLiquidityDepthQuality returns 0.15: the two-sided term fires
because orderbook?.bestBid !== null is true for a null orderbook
(optional chaining yields undefined), although no two-sided quote
exists anywhere. -/
theorem scoreLiquidityDepthQuality_null_orderbook :
    scoreLiquidityDepthQuality zeroLog exNoQuoteMarket none = 3/20 ∧
    twoSidedQuote exNoQuoteMarket none = true := by
  refine ⟨by decide, by decide⟩

/-- C3: the ranked signal list is pairwise ordered by descending
mispricingScore, ties by descending edgePct, remaining ties by ascending
marketSlug; its length is at most max(0, limit) (default 20); limit 0
yields the empty list (and the total function cannot raise); and when
traces are requested both projections come index-aligned from one
trimmed scored list. -/
theorem rankMispricingSignals_ranked (log10 : ℚ → ℚ)
    (input : RankMispricingSignalsInput) :
    ((rankMispricingSignals log10 input).signals.Pairwise (fun a b =>
      b.mispricingScore < a.mispricingScore ∨
      (b.mispricingScore = a.mispricingScore ∧
        (b.edgePct < a.edgePct ∨
          (b.edgePct = a.edgePct ∧ a.marketSlug ≤ b.marketSlug))))) ∧
    (rankMispricingSignals log10 input).signals.length ≤
      (max 0 (input.limit.getD 20)).toNat ∧
    (input.limit = some 0 → (rankMispricingSignals log10 input).signals = []) ∧
    (input.includeTrace = true → ∃ l : List ScoredCandidate,
      (rankMispricingSignals log10 input).signals = l.map (·.signal) ∧
      (rankMispricingSignals log10 input).traces = some (l.map (·.trace))) := by
  refine ⟨?_, ?_, ?_, ?_⟩
  · show (((List.insertionSort scoredRel (rankScored log10 input)).take
      (max 0 (input.limit.getD 20)).toNat).map (·.signal)).Pairwise _
    refine List.pairwise_map.mpr ?_
    exact List.Pairwise.sublist (List.take_sublist _ _)
      (List.sorted_insertionSort scoredRel (rankScored log10 input))
  · show (((List.insertionSort scoredRel (rankScored log10 input)).take
      (max 0 (input.limit.getD 20)).toNat).map (·.signal)).length ≤ _
    rw [List.length_map]
    exact List.length_take_le _ _
  · intro h
    show (((List.insertionSort scoredRel (rankScored log10 input)).take
      (max 0 (input.limit.getD 20)).toNat).map (·.signal)) = []
    simp [h]
  · intro h
    refine ⟨(List.insertionSort scoredRel (rankScored log10 input)).take
      (max 0 (input.limit.getD 20)).toNat, rfl, ?_⟩
    show (if input.includeTrace then _ else none) = _
    rw [h]
    simp

theorem rankMispricingSignals_ranked_witness :
    (rankMispricingSignals zeroLog exEmptyRankInput).signals = [] ∧
    (rankMispricingSignals zeroLog exEmptyRankInput).traces = some [] := by
  have h := rankMispricingSignals_ranked zeroLog exEmptyRankInput
  have h1 : (rankMispricingSignals zeroLog exEmptyRankInput).signals = [] :=
    h.2.2.1 rfl
  refine ⟨h1, ?_⟩
  obtain ⟨l, hl1, hl2⟩ := h.2.2.2 rfl
  rw [hl2]
  cases l with
  | nil => rfl
  | cons a t =>
    rw [h1] at hl1
    exact absurd hl1.symm (by simp)

/-- C9: whenever minVolume is specified, a candidate whose volume24hr is
null is dropped by the volume pre-filter (null compares as negative
infinity, below every finite bound, even a minVolume of 0), so the
whole ranking — signals and traces — is unchanged when such candidates
are removed from the batch up front. -/
theorem rankMispricingSignals_drops_null_volume (log10 : ℚ → ℚ)
    (input : RankMispricingSignalsInput) (v : ℚ)
    (h : input.minVolume = some v) :
    (∀ m : PolymarketMarket, m.volume24hr = none →
      volumePreFilterDrops input.minVolume m = true) ∧
    rankMispricingSignals log10 input = rankMispricingSignals log10
      { input with candidates :=
          input.candidates.filter (fun c => c.market.volume24hr.isSome) } := by
  constructor
  · intro m hm
    rw [h]
    unfold volumePreFilterDrops
    rw [hm]
  · have key : ∀ (l : List RankCandidate),
        l.filterMap (rankCandidate log10 input.minVolume input.maxSpreadBps
          input.minEdgePct input.nowIso (input.timeHorizonHours.getD 24)) =
        (l.filter (fun c => c.market.volume24hr.isSome)).filterMap
          (rankCandidate log10 input.minVolume input.maxSpreadBps
            input.minEdgePct input.nowIso (input.timeHorizonHours.getD 24)) := by
      intro l
      induction l with
      | nil => rfl
      | cons c t ih =>
        cases hc : c.market.volume24hr with
        | none =>
          have hdrop : volumePreFilterDrops input.minVolume c.market = true := by
            rw [h]
            unfold volumePreFilterDrops
            rw [hc]
          rw [List.filterMap_cons, List.filter_cons]
          simp only [hc, Option.isSome_none, Bool.false_eq_true, if_false]
          rw [show rankCandidate log10 input.minVolume input.maxSpreadBps
              input.minEdgePct input.nowIso (input.timeHorizonHours.getD 24) c =
              none from by unfold rankCandidate; rw [hdrop]; rfl]
          exact ih
        | some vol =>
          rw [List.filterMap_cons, List.filter_cons]
          simp only [hc, Option.isSome_some, if_true]
          rw [List.filterMap_cons]
          cases rankCandidate log10 input.minVolume input.maxSpreadBps
            input.minEdgePct input.nowIso (input.timeHorizonHours.getD 24) c with
          | none => exact ih
          | some r => rw [ih]
    unfold rankMispricingSignals
    have hsc : rankScored log10 input = rankScored log10
        { input with candidates :=
            input.candidates.filter (fun c => c.market.volume24hr.isSome) } := by
      unfold rankScored
      exact key input.candidates
    rw [hsc]

set_option maxRecDepth 100000 in
theorem rankMispricingSignals_drops_null_volume_witness :
    rankMispricingSignals zeroLog exNullVolumeInput =
      rankMispricingSignals zeroLog
        { exNullVolumeInput with
          candidates := exNullVolumeInput.candidates.filter
            (fun c => c.market.volume24hr.isSome) } ∧
    (rankMispricingSignals zeroLog exNullVolumeInput).signals = [] ∧
    (rankMispricingSignals zeroLog exNullVolumeInput).traces = none :=
  ⟨(rankMispricingSignals_drops_null_volume zeroLog exNullVolumeInput 0 rfl).2,
    by decide, by decide⟩

set_option maxRecDepth 100000 in
/-- C10: a candidate whose resolved spread is null is never dropped by
the maxSpreadBps pre-filter, whatever bound is specified; concretely,
the null-spread fixture resolves to no spread and still appears in the
ranked output of a batch filtered with maxSpreadBps 0. -/
theorem rankMispricingSignals_keeps_null_spread :
    (∀ (maxSpreadBps : Option ℚ) (m : PolymarketMarket)
      (ob : Option OrderbookSnapshot), resolveSpreadBps m ob = none →
      spreadPreFilterDrops maxSpreadBps m ob = false) ∧
    resolveSpreadBps exNullSpreadMarket none = none ∧
    (rankMispricingSignals zeroLog exNullSpreadInput).signals.map
      (·.marketId) = ["null-spread"] := by
  refine ⟨?_, by decide, by decide⟩
  intro maxS m ob hnone
  cases maxS with
  | none => rfl
  | some bound =>
    unfold spreadPreFilterDrops
    rw [hnone]

theorem rankMispricingSignals_keeps_null_spread_witness :
    spreadPreFilterDrops (some 0) exNullSpreadMarket none = false :=
  rankMispricingSignals_keeps_null_spread.1 (some 0) exNullSpreadMarket none
    (by decide)

theorem exists_error_bind {α β : Type} (x : Except String α)
    (f : α → Except String β) (hf : ∀ a, ∃ m, f a = .error m) :
    ∃ m, (x >>= f) = .error m := by
  cases x with
  | error e => exact ⟨e, rfl⟩
  | ok a => exact hf a

theorem exists_error_bind_left {α β : Type} (x : Except String α)
    (f : α → Except String β) (hx : ∃ m, x = .error m) :
    ∃ m, (x >>= f) = .error m := by
  obtain ⟨m, hm⟩ := hx
  refine ⟨m, ?_⟩
  rw [hm]
  rfl

theorem normalizePositiveInteger_error (value : Option JsNum) (fallback : ℚ)
    (maxVal : Option ℚ) (h : providedNonPositiveInteger value) :
    ∃ m, normalizePositiveInteger value fallback maxVal = .error m := by
  obtain ⟨n, hv, hbad⟩ := h
  subst hv
  cases n with
  | num q =>
    unfold normalizePositiveInteger
    dsimp only [Option.getD]
    rw [if_neg (fun hc => ?_)]
    · exact ⟨_, rfl⟩
    · obtain ⟨hden, hpos⟩ := hc
      rcases hbad with hfin | hint | ⟨q2, heq, hle⟩
      · exact absurd hfin (by simp [JsNum.isFinite])
      · refine absurd hint ?_
        simp [JsNum.isInteger, hden]
      · cases heq
        exact absurd hpos (not_lt.mpr hle)
  | nan => exact ⟨_, rfl⟩
  | posInf => exact ⟨_, rfl⟩
  | negInf => exact ⟨_, rfl⟩

theorem normalizeNonNegativeNumber_error (value : Option JsNum) (fallback : ℚ)
    (h : providedNegative value) :
    ∃ m, normalizeNonNegativeNumber value fallback = .error m := by
  obtain ⟨q, hv, hneg⟩ := h
  subst hv
  unfold normalizeNonNegativeNumber
  dsimp only [Option.getD]
  rw [if_neg (not_le.mpr hneg)]
  exact ⟨_, rfl⟩

theorem normalizePositiveNumber_error (value : Option JsNum) (fallback : ℚ)
    (h : providedNonPositive value) :
    ∃ m, normalizePositiveNumber value fallback = .error m := by
  obtain ⟨q, hv, hle⟩ := h
  subst hv
  unfold normalizePositiveNumber
  dsimp only [Option.getD]
  rw [if_neg (not_lt.mpr hle)]
  exact ⟨_, rfl⟩

theorem normalizeBoundedNumber_error (value : Option JsNum) (fallback lo hi : ℚ)
    (h : providedNonPositive value) :
    ∃ m, normalizeBoundedNumber value fallback lo hi = .error m := by
  obtain ⟨q, hv, hle⟩ := h
  subst hv
  unfold normalizeBoundedNumber
  dsimp only [Option.getD]
  rw [if_neg (not_lt.mpr hle)]
  exact ⟨_, rfl⟩

/-- C8: a provided limit or concurrency that is not a positive finite
integer, a provided negative minVolume, a provided non-positive
maxSpreadBps, or a provided non-positive timeHorizonHours makes
normalizeInput throw, and since scanPolymarketMispricing runs
normalizeInput before its fetch-and-score continuation, the scan returns
the validation error whatever that continuation would compute — no
scoring work is performed. -/
theorem scanPipeline_rejects_invalid_input (input : PolymarketScanInput)
    (h : providedNonPositiveInteger input.limit ∨
      providedNonPositiveInteger input.concurrency ∨
      providedNegative input.minVolume ∨
      providedNonPositive input.maxSpreadBps ∨
      providedNonPositive input.timeHorizonHours) :
    (∃ msg, normalizeInput input = .error msg) ∧
    ∀ {α : Type} (rest : NormalizedScanInput → Except String α),
      ∃ msg, scanPipeline rest input = .error msg := by
  suffices herr : ∃ msg, normalizeInput input = .error msg by
    refine ⟨herr, ?_⟩
    intro α rest
    obtain ⟨m, hm⟩ := herr
    refine ⟨m, ?_⟩
    unfold scanPipeline
    rw [hm]
  unfold normalizeInput
  rcases h with h | h | h | h | h
  · exact exists_error_bind_left _ _
      (normalizePositiveInteger_error _ _ _ h)
  · refine exists_error_bind _ _ (fun limit => ?_)
    refine exists_error_bind _ _ (fun minVolume => ?_)
    refine exists_error_bind _ _ (fun maxSpreadBps => ?_)
    refine exists_error_bind _ _ (fun timeHorizonHours => ?_)
    exact exists_error_bind_left _ _
      (normalizePositiveInteger_error _ _ _ h)
  · refine exists_error_bind _ _ (fun limit => ?_)
    exact exists_error_bind_left _ _
      (normalizeNonNegativeNumber_error _ _ h)
  · refine exists_error_bind _ _ (fun limit => ?_)
    refine exists_error_bind _ _ (fun minVolume => ?_)
    exact exists_error_bind_left _ _
      (normalizePositiveNumber_error _ _ h)
  · refine exists_error_bind _ _ (fun limit => ?_)
    refine exists_error_bind _ _ (fun minVolume => ?_)
    refine exists_error_bind _ _ (fun maxSpreadBps => ?_)
    exact exists_error_bind_left _ _
      (normalizeBoundedNumber_error _ _ _ _ h)

theorem scanPipeline_rejects_invalid_input_witness :
    ∃ msg, normalizeInput exBadScanInput = Except.error msg :=
  (scanPipeline_rejects_invalid_input exBadScanInput
    (Or.inl ⟨JsNum.num (-1), rfl, Or.inr (Or.inr ⟨-1, rfl, by norm_num⟩)⟩)).1

end Finny
